import Mathlib

/-!
Verification of the follower-watch backend (backend/function.go).

The Go source is shallowly embedded below: every definition mirrors the
corresponding function of the current revision of `backend/function.go`
(the revision with the `[DEBUG]` logging and the title-fallback username
resolution, which is the one exercised by `function_test.go`).

Modelling conventions:
* Go strings are Lean `String`s; `strings.ToLower` is modelled by the
  ASCII per-character lowering `lowerString` (the usernames and file
  names handled by this program are ASCII).
* JSON texts are modelled by the inductive `Json`; the byte-level JSON
  parse performed by `encoding/json` is abstracted by the `json` field of
  `ZipFile` (`none` means the bytes are not valid JSON, so every
  `json.Unmarshal` call on them fails).  The shape-directed part of
  `json.Unmarshal` (decoding a `Json` value into the concrete Go struct
  types) is embedded faithfully by the `decode*` functions, including
  Go's leniency: unknown object keys are ignored, `null` is a no-op for
  scalar fields and clears slice fields, and keys match field names
  case-insensitively with the last occurrence winning.
* A ZIP archive already opened by `zip.NewReader` is a list of
  `ZipFile`s; `zip.NewReader` itself is abstracted as an
  `Option (List ZipFile)` argument of the orchestrator (`none` meaning
  the reader failed).  `file.Open()`/`io.ReadAll` failures are the
  `openOk`/`readOk` flags.
* The `log.Printf` calls are modelled as a list of strings accumulated
  in source order; dynamic text produced by the Go runtime itself
  (error values of `encoding/json`) is elided from the messages, while
  every piece of user data interpolated by the source (file names,
  counts, the content preview) is kept.
-/

namespace FollowerWatch

/-! ## Go string helpers -/

/-- ASCII lowering of one character, modelling what `strings.ToLower`
does on the ASCII range. -/
def lowerChar (c : Char) : Char := c.toLower

/-- Models `strings.ToLower`. -/
def lowerString (s : String) : String := String.mk (s.data.map lowerChar)

/-- Models the `%.500s` precision of `log.Printf`: at most `n` characters
of `s`. -/
def strTake (s : String) (n : Nat) : String := String.mk (s.data.take n)

/-- Models `fileName[idx+1:]` after `strings.LastIndex(fileName, "/")`:
the characters after the last slash (the whole name when there is no
slash). -/
def baseNameChars (l : List Char) : List Char :=
  l.foldl (fun acc c => if c == '/' then [] else acc ++ [c]) []

/-- Base name of a path, see `baseNameChars`. -/
def baseNameOf (s : String) : String := String.mk (baseNameChars s.data)

/-- If `pat` is a leading segment of `l`, return the rest of `l`. -/
def stripLead : List Char → List Char → Option (List Char)
  | [], l => some l
  | _ :: _, [] => none
  | a :: as, b :: bs => if a == b then stripLead as bs else none

/-- Does `sub` occur as a contiguous segment of `hay`?  Models
`strings.Contains hay sub`. -/
def hasSubstr (hay sub : List Char) : Bool :=
  match hay with
  | [] => (stripLead sub []).isSome
  | _ :: t => (stripLead sub hay).isSome || hasSubstr t sub

/-- Models `strings.Contains (on strings)`. -/
def containsSub (hay sub : String) : Bool := hasSubstr hay.data sub.data

/-! ## The three regular expressions of the source -/

/-- Models `regexp.MustCompile("(?i)followers(_\\d+)?\\.json$").MatchString base`:
the (lowered) base name ends in `followers.json` or in
`followers_<digits>.json` with at least one digit. -/
def followerPatternMatch (base : String) : Bool :=
  let r := (lowerString base).data.reverse
  match stripLead ".json".data.reverse r with
  | none => false
  | some rest =>
    (stripLead "followers".data.reverse rest).isSome ||
      (let ds := rest.takeWhile Char.isDigit
       decide (1 ≤ ds.length) &&
         (stripLead ("followers_".data.reverse) (rest.drop ds.length)).isSome)

/-- Models `regexp.MustCompile("(?i)^following\\.json$").MatchString base`. -/
def followingPatternMatch (base : String) : Bool :=
  lowerString base == "following.json"

/-- Models `regexp.MustCompile("(?i)connections/followers_and_following/").MatchString name`. -/
def inExpectedPath (name : String) : Bool :=
  containsSub (lowerString name) "connections/followers_and_following/"

/-! ## JSON values and the Go struct types -/

/-- A parsed JSON document.  Object fields are kept in source order, as
`encoding/json` processes them. -/
inductive Json where
  | null : Json
  | bool (b : Bool) : Json
  | num (n : Int) : Json
  | str (s : String) : Json
  | arr (elems : List Json) : Json
  | obj (fields : List (String × Json)) : Json

/-- One element of `string_list_data` (anonymous struct in the Go
source): `Href`, `Value`, `Timestamp`. -/
structure SLItem where
  href : String := ""
  value : String := ""
  timestamp : Int := 0
deriving DecidableEq, Repr

/-- One element of `media_list_data` (anonymous struct in the Go
source): `Title`. -/
structure MLItem where
  title : String := ""
deriving DecidableEq, Repr

/-- Go struct `InstagramRelationship`. -/
structure InstagramRelationship where
  title : String := ""
  mediaList : List MLItem := []
  stringListData : List SLItem := []
deriving DecidableEq, Repr

/-- Go struct `FollowingData`. -/
structure FollowingData where
  relationshipsFollowing : List InstagramRelationship := []
deriving DecidableEq, Repr

/-- Go struct `NonFollower`. -/
structure NonFollower where
  username : String
  profileURL : String
  followedAt : Int
deriving DecidableEq, Repr

/-! ## json.Unmarshal into the struct types

Go's `encoding/json` matches object keys to struct fields
case-insensitively, processes keys in source order (last occurrence
wins), ignores unknown keys, treats `null` as a no-op for string and
integer fields and as "set to nil" for slice fields, errors on a type
mismatch, and decodes a top-level `null` into any target as a no-op. -/

/-- Key/field-name comparison of `encoding/json` (case-insensitive). -/
def keyIs (k field : String) : Bool := lowerString k == field

/-- Decode the fields of a `string_list_data` element. -/
def decodeSLFields : SLItem → List (String × Json) → Option SLItem
  | acc, [] => some acc
  | acc, (k, v) :: rest =>
    if keyIs k "href" then
      match v with
      | Json.null => decodeSLFields acc rest
      | Json.str s => decodeSLFields { acc with href := s } rest
      | _ => none
    else if keyIs k "value" then
      match v with
      | Json.null => decodeSLFields acc rest
      | Json.str s => decodeSLFields { acc with value := s } rest
      | _ => none
    else if keyIs k "timestamp" then
      match v with
      | Json.null => decodeSLFields acc rest
      | Json.num n => decodeSLFields { acc with timestamp := n } rest
      | _ => none
    else decodeSLFields acc rest

/-- Decode one `string_list_data` element. -/
def decodeSLItem : Json → Option SLItem
  | Json.null => some {}
  | Json.obj fs => decodeSLFields {} fs
  | _ => none

/-- Decode the fields of a `media_list_data` element. -/
def decodeMLFields : MLItem → List (String × Json) → Option MLItem
  | acc, [] => some acc
  | acc, (k, v) :: rest =>
    if keyIs k "title" then
      match v with
      | Json.null => decodeMLFields acc rest
      | Json.str s => decodeMLFields { acc with title := s } rest
      | _ => none
    else decodeMLFields acc rest

/-- Decode one `media_list_data` element. -/
def decodeMLItem : Json → Option MLItem
  | Json.null => some {}
  | Json.obj fs => decodeMLFields {} fs
  | _ => none

/-- Decode a JSON value into a Go slice whose elements decode by `dec`:
`null` gives the nil slice, an array decodes elementwise, anything else
fails. -/
def decodeJList (dec : Json → Option α) : Json → Option (List α)
  | Json.null => some []
  | Json.arr xs => xs.mapM dec
  | _ => none

/-- Decode the fields of an `InstagramRelationship` object. -/
def decodeRelFields : InstagramRelationship → List (String × Json) →
    Option InstagramRelationship
  | acc, [] => some acc
  | acc, (k, v) :: rest =>
    if keyIs k "title" then
      match v with
      | Json.null => decodeRelFields acc rest
      | Json.str s => decodeRelFields { acc with title := s } rest
      | _ => none
    else if keyIs k "media_list_data" then
      match decodeJList decodeMLItem v with
      | some ms => decodeRelFields { acc with mediaList := ms } rest
      | none => none
    else if keyIs k "string_list_data" then
      match decodeJList decodeSLItem v with
      | some ss => decodeRelFields { acc with stringListData := ss } rest
      | none => none
    else decodeRelFields acc rest

/-- Models `json.Unmarshal(content, &singleRel)` for a single
`InstagramRelationship`. -/
def decodeRel : Json → Option InstagramRelationship
  | Json.null => some {}
  | Json.obj fs => decodeRelFields {} fs
  | _ => none

/-- Models `json.Unmarshal(content, &relationships)` for
`[]InstagramRelationship`. -/
def decodeRelList : Json → Option (List InstagramRelationship) :=
  decodeJList decodeRel

/-- Decode the fields of a `FollowingData` object. -/
def decodeFDFields : FollowingData → List (String × Json) → Option FollowingData
  | acc, [] => some acc
  | acc, (k, v) :: rest =>
    if keyIs k "relationships_following" then
      match decodeRelList v with
      | some rs => decodeFDFields { acc with relationshipsFollowing := rs } rest
      | none => none
    else decodeFDFields acc rest

/-- Models `json.Unmarshal(content, &followingData)` for `FollowingData`. -/
def decodeFollowingData : Json → Option FollowingData
  | Json.null => some {}
  | Json.obj fs => decodeFDFields {} fs
  | _ => none

/-! ## Username resolution (the two extraction sites) -/

/-- Username resolution performed inside `extractFollowers`
(`username := rel.Title; if len(rel.StringListData) > 0 &&
rel.StringListData[0].Value != "" { username = rel.StringListData[0].Value }`). -/
def followersResolvedUsername (rel : InstagramRelationship) : String :=
  match rel.stringListData with
  | [] => rel.title
  | d :: _ => if d.value == "" then rel.title else d.value

/-- Username resolution performed inside `extractFollowing` (same
assignments, nested differently in the source). -/
def followingResolvedUsername (rel : InstagramRelationship) : String :=
  match rel.stringListData with
  | [] => rel.title
  | d :: _ => if d.value == "" then rel.title else d.value

/-- Timestamp taken inside `extractFollowing`:
`rel.StringListData[0].Timestamp` when the list is non-empty, else the
zero value. -/
def followingTimestampOf (rel : InstagramRelationship) : Int :=
  match rel.stringListData with
  | [] => 0
  | d :: _ => d.timestamp

/-- Go map insertion `followers[key] = struct{}{}` on the list-of-keys
model of the set. -/
def setInsert (s : List String) (key : String) : List String :=
  if s.contains key then s else s ++ [key]

/-- The body of the per-relationship loop of `extractFollowers`: resolve
the username and, when non-empty, insert its lowering into the set. -/
def followersAddRel (followers : List String) (rel : InstagramRelationship) :
    List String :=
  let username := followersResolvedUsername rel
  if username == "" then followers else setInsert followers (lowerString username)

/-- The `NonFollower` record appended by `extractFollowing` for one
relationship (`none` when the resolved username is empty). -/
def relToNonFollower (rel : InstagramRelationship) : Option NonFollower :=
  let username := followingResolvedUsername rel
  if username == "" then none
  else some { username := username
              profileURL := "https://instagram.com/" ++ username
              followedAt := followingTimestampOf rel }

/-- The body of the per-relationship loop of `extractFollowing`. -/
def followingAddRel (following : List NonFollower) (rel : InstagramRelationship) :
    List NonFollower :=
  match relToNonFollower rel with
  | some nf => following ++ [nf]
  | none => following

/-! ## The archive and the two extraction passes -/

/-- One entry of the opened ZIP archive.  `raw` is the text of the
entry's bytes, `json` the result of parsing them as JSON (`none` when
they are not valid JSON, making every `json.Unmarshal` fail), and
`openOk`/`readOk` model the `file.Open()` and `io.ReadAll` error
branches. -/
structure ZipFile where
  name : String
  raw : String := ""
  json : Option Json := none
  openOk : Bool := true
  readOk : Bool := true

/-- Processing of a single archive entry by `extractFollowers`
(lines 503-580 of the source): returns the updated follower set and the
log lines emitted for this entry. -/
def followersStep (followers : List String) (f : ZipFile) :
    List String × List String :=
  let fileName := f.name
  let baseName := baseNameOf fileName
  let inPath := inExpectedPath fileName
  let matchesPat := followerPatternMatch baseName
  let hdr := ["[DEBUG] extractFollowers: checking file: " ++ fileName,
    "[DEBUG] extractFollowers: file=" ++ fileName ++ ", baseName=" ++ baseName ++
      ", inExpectedPath=" ++ toString inPath ++ ", matchesFollowerPattern=" ++
      toString matchesPat]
  if !matchesPat && !containsSub (lowerString baseName) "followers" then
    (followers, hdr ++
      ["[DEBUG] extractFollowers: skipping " ++ fileName ++ " (not a followers file)"])
  else if containsSub (lowerString baseName) "following" then
    (followers, hdr ++
      ["[DEBUG] extractFollowers: skipping " ++ fileName ++ " (is a following file)"])
  else if !inPath && !matchesPat then
    (followers, hdr ++
      ["[DEBUG] extractFollowers: skipping " ++ fileName ++
        " (not in expected path and does not match pattern)"])
  else
    let hdr := hdr ++ ["[DEBUG] extractFollowers: PROCESSING file: " ++ fileName]
    if !f.openOk then (followers, hdr)
    else if !f.readOk then (followers, hdr)
    else
      let failedArr := "[DEBUG] extractFollowers: failed to parse " ++ fileName ++
        " as []InstagramRelationship"
      match f.json with
      | some j =>
        match decodeRelList j with
        | some rels =>
          (rels.foldl followersAddRel followers, hdr ++
            ["[DEBUG] extractFollowers: parsed " ++ fileName ++
              " as []InstagramRelationship with " ++ toString rels.length ++ " items"])
        | none =>
          match decodeRel j with
          | some rel =>
            (followersAddRel followers rel, hdr ++ [failedArr,
              "[DEBUG] extractFollowers: parsed " ++ fileName ++
                " as single InstagramRelationship"])
          | none =>
            (followers, hdr ++ [failedArr,
              "[DEBUG] extractFollowers: failed to parse " ++ fileName ++
                " as single InstagramRelationship",
              "[DEBUG] extractFollowers: content preview: " ++ strTake f.raw 500])
      | none =>
        (followers, hdr ++ [failedArr,
          "[DEBUG] extractFollowers: failed to parse " ++ fileName ++
            " as single InstagramRelationship",
          "[DEBUG] extractFollowers: content preview: " ++ strTake f.raw 500])

/-- The `for _, file := range zipReader.File` loop of `extractFollowers`. -/
def extractFollowersLoop (followers : List String) :
    List ZipFile → List String × List String
  | [] => (followers, [])
  | f :: rest =>
    let s := followersStep followers f
    let r := extractFollowersLoop s.1 rest
    (r.1, s.2 ++ r.2)

/-- Return value of `extractFollowers`:
`return followers, len(followers), nil`, plus the log lines. -/
structure FollowersResult where
  followers : List String
  total : Nat
  err : Option String
  logs : List String

/-- Models `extractFollowers` (lines 494-585 of the source). -/
def extractFollowers (files : List ZipFile) : FollowersResult :=
  let r := extractFollowersLoop [] files
  { followers := r.1
    total := r.1.length
    err := none
    logs := ["[DEBUG] extractFollowers: scanning " ++ toString files.length ++
        " files in zip"] ++ r.2 ++
      ["[DEBUG] extractFollowers: found " ++ toString r.1.length ++
        " total followers"] }

/-- The `[]InstagramRelationship` attempt at the end of the
`extractFollowing` loop body (reached both when the `FollowingData`
attempt failed and when it succeeded without producing any entry). -/
def followingArrayAttempt (following : List NonFollower) (logs : List String)
    (fileName raw : String) (j : Json) : List NonFollower × List String × Bool :=
  match decodeRelList j with
  | some rels =>
    (rels.foldl followingAddRel following, logs ++
      ["[DEBUG] extractFollowing: parsed " ++ fileName ++
        " as []InstagramRelationship with " ++ toString rels.length ++ " items"],
      false)
  | none =>
    (following, logs ++
      ["[DEBUG] extractFollowing: failed to parse " ++ fileName ++
        " as []InstagramRelationship",
       "[DEBUG] extractFollowing: content preview: " ++ strTake raw 500],
      false)

/-- Processing of a single archive entry by `extractFollowing`
(lines 596-697 of the source): returns the updated following list, the
log lines for this entry, and whether the `break` was taken. -/
def followingStep (following : List NonFollower) (f : ZipFile) :
    List NonFollower × List String × Bool :=
  let fileName := f.name
  let lowerFileName := lowerString fileName
  let baseName := baseNameOf fileName
  let lowerBaseName := lowerString baseName
  let inPath := inExpectedPath fileName
  let matchesPat := followingPatternMatch baseName
  let hdr := ["[DEBUG] extractFollowing: checking file: " ++ fileName,
    "[DEBUG] extractFollowing: file=" ++ fileName ++ ", baseName=" ++ baseName ++
      ", inExpectedPath=" ++ toString inPath ++ ", matchesFollowingPattern=" ++
      toString matchesPat]
  if !matchesPat && !containsSub lowerBaseName "following" then
    (following, hdr ++
      ["[DEBUG] extractFollowing: skipping " ++ fileName ++ " (not a following file)"],
      false)
  else if containsSub lowerBaseName "followers" then
    (following, hdr ++
      ["[DEBUG] extractFollowing: skipping " ++ fileName ++ " (is a followers file)"],
      false)
  else if !inPath && !matchesPat && !containsSub lowerFileName "following" then
    (following, hdr ++
      ["[DEBUG] extractFollowing: skipping " ++ fileName ++ " (not in expected path)"],
      false)
  else
    let hdr := hdr ++ ["[DEBUG] extractFollowing: PROCESSING file: " ++ fileName]
    if !f.openOk then (following, hdr, false)
    else if !f.readOk then (following, hdr, false)
    else
      match f.json with
      | some j =>
        match decodeFollowingData j with
        | some fd =>
          let fl := fd.relationshipsFollowing.foldl followingAddRel following
          let hdr := hdr ++ ["[DEBUG] extractFollowing: parsed " ++ fileName ++
            " as FollowingData with " ++ toString fd.relationshipsFollowing.length ++
            " relationships"]
          if 0 < fl.length then
            (fl, hdr ++ ["[DEBUG] extractFollowing: found " ++ toString fl.length ++
              " following from FollowingData"], true)
          else followingArrayAttempt fl hdr fileName f.raw j
        | none =>
          followingArrayAttempt following (hdr ++
            ["[DEBUG] extractFollowing: failed to parse " ++ fileName ++
              " as FollowingData"]) fileName f.raw j
      | none =>
        (following, hdr ++
          ["[DEBUG] extractFollowing: failed to parse " ++ fileName ++
            " as FollowingData",
           "[DEBUG] extractFollowing: failed to parse " ++ fileName ++
            " as []InstagramRelationship",
           "[DEBUG] extractFollowing: content preview: " ++ strTake f.raw 500],
          false)

/-- The `for _, file := range zipReader.File` loop of `extractFollowing`
(the third component of a step signals the `break`). -/
def extractFollowingLoop (following : List NonFollower) :
    List ZipFile → List NonFollower × List String
  | [] => (following, [])
  | f :: rest =>
    let s := followingStep following f
    if s.2.2 then (s.1, s.2.1)
    else
      let r := extractFollowingLoop s.1 rest
      (r.1, s.2.1 ++ r.2)

/-- Return value of `extractFollowing`:
`return following, len(following), nil`, plus the log lines. -/
structure FollowingResult where
  following : List NonFollower
  total : Nat
  err : Option String
  logs : List String

/-- Models `extractFollowing` (lines 587-701 of the source). -/
def extractFollowing (files : List ZipFile) : FollowingResult :=
  let r := extractFollowingLoop [] files
  { following := r.1
    total := r.1.length
    err := none
    logs := ["[DEBUG] extractFollowing: scanning " ++ toString files.length ++
        " files in zip"] ++ r.2 ++
      ["[DEBUG] extractFollowing: found " ++ toString r.1.length ++
        " total following"] }

/-! ## The differ and the request orchestrator -/

/-- Models `findNonFollowers` (lines 703-714 of the source). -/
def findNonFollowers (following : List NonFollower) (followers : List String) :
    List NonFollower :=
  following.foldl
    (fun nonFollowers user =>
      let username := lowerString user.username
      if followers.contains username then nonFollowers
      else nonFollowers ++ [user])
    []

/-- Outcome of one request, as serialized by `sendError` / `sendJSON`:
either an error response (HTTP status and error message) or the success
payload. -/
inductive AnalyzeResult where
  | errorResp (status : Nat) (msg : String) : AnalyzeResult
  | ok (nonFollowers : List NonFollower)
      (totalFollowing totalFollowers count : Nat) (msg : String) : AnalyzeResult
deriving DecidableEq, Repr

/-- Is the response one of the two `http.StatusInternalServerError`
branches? -/
def isServerError : AnalyzeResult → Bool
  | AnalyzeResult.errorResp status _ => status == 500
  | AnalyzeResult.ok _ _ _ _ _ => false

/-- Models `AnalyzeFollowers` from the magic-number check onward
(lines 747-792 of the source).  `body` is the byte buffer already read
from the request; `zipParse` is the outcome of
`zip.NewReader(bytes.NewReader(bodyBytes), ...)`, abstracted (`none`
meaning the reader returned an error). -/
def analyzeCore (body : List Nat) (zipParse : Option (List ZipFile)) :
    AnalyzeResult :=
  if body.length < 4 ∨ ¬body.get? 0 = some 0x50 ∨ ¬body.get? 1 = some 0x4B then
    AnalyzeResult.errorResp 400 "Invalid file format. Please upload a valid ZIP file."
  else
    match zipParse with
    | none =>
      AnalyzeResult.errorResp 400
        "Failed to read ZIP file. Please ensure it's a valid ZIP archive."
    | some files =>
      let fr := extractFollowers files
      match fr.err with
      | some _ => AnalyzeResult.errorResp 500 "Failed to process followers data"
      | none =>
        let fg := extractFollowing files
        match fg.err with
        | some _ => AnalyzeResult.errorResp 500 "Failed to process following data"
        | none =>
          if fg.total = 0 then
            AnalyzeResult.errorResp 400
              "No following data found. Please upload a valid Instagram data export."
          else if fr.total = 0 then
            AnalyzeResult.errorResp 400
              "No followers data found. Please upload a valid Instagram data export."
          else
            let nonFollowers := findNonFollowers fg.following fr.followers
            AnalyzeResult.ok nonFollowers fg.total fr.total nonFollowers.length
              "Analysis complete"

/-- Models `maxRequests`. -/
def maxRequests : Nat := 10

/-- Models `windowDuration` (5 minutes), in seconds. -/
def windowDuration : Int := 300

/-- Models `checkRateLimit` for a single client key: `tracker` is
`requestTracker[ip]`, `now` the current time in seconds.  Returns the
decision and the updated tracker entry. -/
def checkRateLimit (tracker : List Int) (now : Int) : Bool × List Int :=
  let cutoff := now - windowDuration
  let validRequests := tracker.filter (fun t => cutoff < t)
  if maxRequests ≤ validRequests.length then (false, validRequests)
  else (true, validRequests ++ [now])

/-- Models the `AnalyzeFollowers` handler for a POST request of one
client: the rate-limit gate followed by `analyzeCore`, threading the
mutable `requestTracker` state explicitly. -/
def analyzeHandler (tracker : List Int) (now : Int) (body : List Nat)
    (zipParse : Option (List ZipFile)) : AnalyzeResult × List Int :=
  let rl := checkRateLimit tracker now
  if rl.1 then (analyzeCore body zipParse, rl.2)
  else (AnalyzeResult.errorResp 429 "Rate limit exceeded. Please try again later.", rl.2)

/-! ## Derived predicates and per-file decode orders

These restate, as single definitions, the conditions and decode orders
that the step functions implement with sequential `if`/`continue`
checks; the theorems below prove the correspondence. -/

/-- The three `continue` guards of `extractFollowers` combined: does the
entry reach the decode attempts? -/
def followersFileAdmitted (f : ZipFile) : Bool :=
  let base := baseNameOf f.name
  (followerPatternMatch base || containsSub (lowerString base) "followers") &&
    !containsSub (lowerString base) "following" &&
    (inExpectedPath f.name || followerPatternMatch base)

/-- The three `continue` guards of `extractFollowing` combined. -/
def followingFileAdmitted (f : ZipFile) : Bool :=
  let base := baseNameOf f.name
  (followingPatternMatch base || containsSub (lowerString base) "following") &&
    !containsSub (lowerString base) "followers" &&
    (inExpectedPath f.name || followingPatternMatch base ||
      containsSub (lowerString f.name) "following")

/-- The decode attempts of `extractFollowers`, in source order: the bare
`[]InstagramRelationship` shape first, then the single
`InstagramRelationship` shape. -/
def followersAttemptOrder : Option Json → List InstagramRelationship
  | none => []
  | some j =>
    match decodeRelList j with
    | some rels => rels
    | none =>
      match decodeRel j with
      | some rel => [rel]
      | none => []

/-- The decode attempts of `extractFollowing`, in source order: the
`FollowingData` shape first, then the bare `[]InstagramRelationship`
shape. -/
def followingAttemptOrder : Option Json → List InstagramRelationship
  | none => []
  | some j =>
    match decodeFollowingData j with
    | some fd => fd.relationshipsFollowing
    | none =>
      match decodeRelList j with
      | some rels => rels
      | none => []

/-- Modelled from the spec: the claim's per-file decode order — (1) bare
sequence of records, (2) object with a `relationships_following`
sequence, (3) single record — first success winning. -/
def claimAttemptOrder (j : Json) : List InstagramRelationship :=
  match decodeRelList j with
  | some rels => rels
  | none =>
    match decodeFollowingData j with
    | some fd => fd.relationshipsFollowing
    | none =>
      match decodeRel j with
      | some rel => [rel]
      | none => []

/-- Modelled from the spec (§4.3): prefer `entries[0].value` when
non-empty, else fall back to `title`. -/
def specResolvedUsername (rel : InstagramRelationship) : String :=
  match rel.stringListData with
  | [] => rel.title
  | d :: _ => if d.value ≠ "" then d.value else rel.title

/-! ## Concrete test data -/

/-- A relationship object of the shape Instagram exports, with the
username in `string_list_data[0].value`. -/
def sampleRelObj (u : String) : Json :=
  Json.obj [("title", Json.str ""),
    ("string_list_data", Json.arr [Json.obj
      [("href", Json.str ("https://www.instagram.com/" ++ u)),
       ("value", Json.str u),
       ("timestamp", Json.num 1700000000)]])]

/-- Scenario A followers file: users user1 and user2. -/
def scenarioAFollowersFile : ZipFile :=
  { name := "connections/followers_and_following/followers_1.json"
    json := some (Json.arr [sampleRelObj "user1", sampleRelObj "user2"]) }

/-- Scenario A following file: users user1, user3 and user4. -/
def scenarioAFollowingFile : ZipFile :=
  { name := "connections/followers_and_following/following.json"
    json := some (Json.obj [("relationships_following",
      Json.arr [sampleRelObj "user1", sampleRelObj "user3", sampleRelObj "user4"])]) }

/-- A byte buffer starting with the ZIP local-file-header magic number. -/
def zipMagicBody : List Nat := [0x50, 0x4B, 0x03, 0x04]

/-- A following file whose content is an object that is neither a
well-typed `FollowingData` (its `relationships_following` field is a
number) nor an array, but decodes as a single record with the username
in `title`. -/
def titleOnlyFollowingFile : ZipFile :=
  { name := "connections/followers_and_following/following.json"
    json := some (Json.obj [("title", Json.str "alice"),
      ("relationships_following", Json.num 5)]) }

/-- A followers file whose bytes are not valid JSON, so that both decode
attempts fail. -/
def undecodableFollowersFile : ZipFile :=
  { name := "followers_1.json", raw := "alice_secret", json := none }

/-! ## Helper lemmas -/

/-- The accumulating loop of `findNonFollowers` is `List.filter` with
the accumulator in front. -/
theorem findNonFollowers_foldl_eq (followers : List String) (l : List NonFollower) :
    ∀ acc : List NonFollower,
      List.foldl
        (fun nonFollowers user =>
          let username := lowerString user.username
          if followers.contains username then nonFollowers
          else nonFollowers ++ [user]) acc l
        = acc ++ l.filter (fun u => !followers.contains (lowerString u.username)) := by
  induction l with
  | nil => intro acc; simp
  | cons u l ih =>
    intro acc
    rw [List.foldl_cons, ih, List.filter_cons]
    by_cases hm : lowerString u.username ∈ followers
    · simp [hm]
    · simp [hm]

/-- `extractFollowers` always reports a nil error. -/
theorem extractFollowers_err (files : List ZipFile) :
    (extractFollowers files).err = none := rfl

/-- `extractFollowing` always reports a nil error. -/
theorem extractFollowing_err (files : List ZipFile) :
    (extractFollowing files).err = none := rfl

/-- The reported follower total is the size of the extracted set. -/
theorem extractFollowers_total (files : List ZipFile) :
    (extractFollowers files).total = (extractFollowers files).followers.length := rfl

/-- The reported following total is the length of the extracted list. -/
theorem extractFollowing_total (files : List ZipFile) :
    (extractFollowing files).total = (extractFollowing files).following.length := rfl

/-- Reduction of `analyzeCore` once the magic-number check passes and
the ZIP reader succeeds. -/
theorem analyzeCore_some (body : List Nat) (files : List ZipFile)
    (h : ¬(body.length < 4 ∨ ¬body.get? 0 = some 0x50 ∨ ¬body.get? 1 = some 0x4B)) :
    analyzeCore body (some files)
      = if (extractFollowing files).total = 0 then
          AnalyzeResult.errorResp 400
            "No following data found. Please upload a valid Instagram data export."
        else if (extractFollowers files).total = 0 then
          AnalyzeResult.errorResp 400
            "No followers data found. Please upload a valid Instagram data export."
        else
          AnalyzeResult.ok
            (findNonFollowers (extractFollowing files).following
              (extractFollowers files).followers)
            (extractFollowing files).total (extractFollowers files).total
            (findNonFollowers (extractFollowing files).following
              (extractFollowers files).followers).length
            "Analysis complete" := by
  unfold analyzeCore
  rw [if_neg h]
  rfl

/-- A singleton archive reduces `extractFollowing` to one step,
whether or not the step takes the `break`. -/
theorem extractFollowing_singleton (f : ZipFile) :
    (extractFollowing [f]).following = (followingStep [] f).1 := by
  show (extractFollowingLoop [] [f]).1 = _
  simp only [extractFollowingLoop]
  cases hb : (followingStep [] f).2.2 <;> simp [hb]

/-- An entry whose base name contains both markers is skipped by the
followers pass. -/
theorem followersStep_skip_both (followers : List String) (f : ZipFile)
    (h1 : containsSub (lowerString (baseNameOf f.name)) "followers" = true)
    (h2 : containsSub (lowerString (baseNameOf f.name)) "following" = true) :
    (followersStep followers f).1 = followers := by
  unfold followersStep
  simp [h1, h2]

/-- An entry whose base name contains both markers is skipped by the
following pass, without a `break`. -/
theorem followingStep_skip_both (following : List NonFollower) (f : ZipFile)
    (h1 : containsSub (lowerString (baseNameOf f.name)) "followers" = true)
    (h2 : containsSub (lowerString (baseNameOf f.name)) "following" = true) :
    (followingStep following f).1 = following ∧
    (followingStep following f).2.2 = false := by
  unfold followingStep
  simp [h1, h2]

/-- Removing a both-marker entry anywhere in the archive leaves the
extracted follower set unchanged. -/
theorem extractFollowersLoop_skip (f : ZipFile)
    (h1 : containsSub (lowerString (baseNameOf f.name)) "followers" = true)
    (h2 : containsSub (lowerString (baseNameOf f.name)) "following" = true) :
    ∀ (pre post : List ZipFile) (followers : List String),
      (extractFollowersLoop followers (pre ++ f :: post)).1
        = (extractFollowersLoop followers (pre ++ post)).1 := by
  intro pre
  induction pre with
  | nil =>
    intro post followers
    show (extractFollowersLoop followers (f :: post)).1
      = (extractFollowersLoop followers post).1
    simp only [extractFollowersLoop]
    rw [followersStep_skip_both followers f h1 h2]
  | cons p pre ih =>
    intro post followers
    show (extractFollowersLoop followers (p :: (pre ++ f :: post))).1
      = (extractFollowersLoop followers (p :: (pre ++ post))).1
    simp only [extractFollowersLoop]
    exact ih post (followersStep followers p).1

/-- Removing a both-marker entry anywhere in the archive leaves the
extracted following list unchanged. -/
theorem extractFollowingLoop_skip (f : ZipFile)
    (h1 : containsSub (lowerString (baseNameOf f.name)) "followers" = true)
    (h2 : containsSub (lowerString (baseNameOf f.name)) "following" = true) :
    ∀ (pre post : List ZipFile) (following : List NonFollower),
      (extractFollowingLoop following (pre ++ f :: post)).1
        = (extractFollowingLoop following (pre ++ post)).1 := by
  intro pre
  induction pre with
  | nil =>
    intro post following
    show (extractFollowingLoop following (f :: post)).1
      = (extractFollowingLoop following post).1
    have hs := followingStep_skip_both following f h1 h2
    simp only [extractFollowingLoop]
    rw [hs.2]
    simp [hs.1]
  | cons p pre ih =>
    intro post following
    show (extractFollowingLoop following (p :: (pre ++ f :: post))).1
      = (extractFollowingLoop following (p :: (pre ++ post))).1
    simp only [extractFollowingLoop]
    cases hb : (followingStep following p).2.2 with
    | true => simp [hb]
    | false => simp only [hb, Bool.false_eq_true, if_false]; exact ih post _

/-- The three `continue` guards of the followers pass, from the combined
predicate. -/
theorem followersAdmitted_passes (f : ZipFile)
    (ha : followersFileAdmitted f = true) :
    (!followerPatternMatch (baseNameOf f.name) &&
        !containsSub (lowerString (baseNameOf f.name)) "followers") = false ∧
    containsSub (lowerString (baseNameOf f.name)) "following" = false ∧
    (!inExpectedPath f.name && !followerPatternMatch (baseNameOf f.name)) = false := by
  unfold followersFileAdmitted at ha
  simp only [Bool.and_eq_true] at ha
  obtain ⟨⟨hAB, hC⟩, hDA⟩ := ha
  refine ⟨?_, ?_, ?_⟩
  · rw [← Bool.not_or, hAB]; rfl
  · cases hc : containsSub (lowerString (baseNameOf f.name)) "following"
    · rfl
    · rw [hc] at hC; cases hC
  · rw [← Bool.not_or, hDA]; rfl

/-- The three `continue` guards of the following pass, from the combined
predicate. -/
theorem followingAdmitted_passes (f : ZipFile)
    (ha : followingFileAdmitted f = true) :
    (!followingPatternMatch (baseNameOf f.name) &&
        !containsSub (lowerString (baseNameOf f.name)) "following") = false ∧
    containsSub (lowerString (baseNameOf f.name)) "followers" = false ∧
    (!inExpectedPath f.name && !followingPatternMatch (baseNameOf f.name) &&
        !containsSub (lowerString f.name) "following") = false := by
  unfold followingFileAdmitted at ha
  simp only [Bool.and_eq_true] at ha
  obtain ⟨⟨hAB, hC⟩, hDA⟩ := ha
  refine ⟨?_, ?_, ?_⟩
  · rw [← Bool.not_or, hAB]; rfl
  · cases hc : containsSub (lowerString (baseNameOf f.name)) "followers"
    · rfl
    · rw [hc] at hC; cases hC
  · rw [← Bool.not_or, ← Bool.not_or, hDA]; rfl

/-- An admitted, readable followers file contributes exactly the records
of the first successful decode attempt, tried in source order. -/
theorem followersStep_admitted (followers : List String) (f : ZipFile)
    (hp1 : (!followerPatternMatch (baseNameOf f.name) &&
        !containsSub (lowerString (baseNameOf f.name)) "followers") = false)
    (hp2 : containsSub (lowerString (baseNameOf f.name)) "following" = false)
    (hp3 : (!inExpectedPath f.name && !followerPatternMatch (baseNameOf f.name)) = false)
    (ho : f.openOk = true) (hr : f.readOk = true) :
    (followersStep followers f).1
      = (followersAttemptOrder f.json).foldl followersAddRel followers := by
  unfold followersStep
  simp only [hp1, hp2, hp3, ho, hr, Bool.false_eq_true, if_false, Bool.not_true,
    Bool.true_eq_false]
  cases hj : f.json with
  | none => simp [followersAttemptOrder]
  | some j =>
    cases hd : decodeRelList j with
    | some rels => simp [followersAttemptOrder, hd]
    | none =>
      cases hs : decodeRel j with
      | some rel => simp [followersAttemptOrder, hd, hs]
      | none => simp [followersAttemptOrder, hd, hs]

/-- An admitted, readable following file contributes exactly the records
of the `FollowingData` attempt when it decodes, else those of the bare
sequence attempt. -/
theorem followingStep_admitted (following : List NonFollower) (f : ZipFile)
    (hp1 : (!followingPatternMatch (baseNameOf f.name) &&
        !containsSub (lowerString (baseNameOf f.name)) "following") = false)
    (hp2 : containsSub (lowerString (baseNameOf f.name)) "followers" = false)
    (hp3 : (!inExpectedPath f.name && !followingPatternMatch (baseNameOf f.name) &&
        !containsSub (lowerString f.name) "following") = false)
    (ho : f.openOk = true) (hr : f.readOk = true) :
    (followingStep following f).1
      = (followingAttemptOrder f.json).foldl followingAddRel following := by
  unfold followingStep
  simp only [hp1, hp2, hp3, ho, hr, Bool.false_eq_true, if_false, Bool.not_true,
    Bool.true_eq_false]
  cases hj : f.json with
  | none => simp [followingAttemptOrder]
  | some j =>
    cases hfd : decodeFollowingData j with
    | none =>
      unfold followingArrayAttempt
      cases hd : decodeRelList j with
      | some rels => simp [followingAttemptOrder, hfd, hd]
      | none => simp [followingAttemptOrder, hfd, hd]
    | some fd =>
      by_cases hlen :
          0 < (fd.relationshipsFollowing.foldl followingAddRel following).length
      · simp [followingAttemptOrder, hfd, hlen]
      · have hnil : fd.relationshipsFollowing.foldl followingAddRel following = [] := by
          cases he : fd.relationshipsFollowing.foldl followingAddRel following
          · rfl
          · rw [he] at hlen; simp at hlen
        simp only [followingAttemptOrder, hfd, hlen, if_false, hnil]
        unfold followingArrayAttempt
        cases j with
        | null =>
          simp [decodeRelList, decodeJList]
        | obj fs =>
          simp [decodeRelList, decodeJList]
        | bool b => simp [decodeFollowingData] at hfd
        | num n => simp [decodeFollowingData] at hfd
        | str s => simp [decodeFollowingData] at hfd
        | arr xs => simp [decodeFollowingData] at hfd

/-! ## The claims -/

/-- C1: for every following list and follower set, `findNonFollowers`
returns exactly the following entries whose lower-cased username is
absent from the follower set — it equals `List.filter` of that absence
test, so each emitted entry is unchanged — and the output is a sublist
(subsequence, in original order) of the input. -/
theorem findNonFollowers_filters_in_order (following : List NonFollower)
    (followers : List String) :
    findNonFollowers following followers
      = following.filter (fun u => !followers.contains (lowerString u.username)) ∧
    List.Sublist (findNonFollowers following followers) following := by
  have he : findNonFollowers following followers
      = following.filter (fun u => !followers.contains (lowerString u.username)) := by
    simpa [findNonFollowers] using findNonFollowers_foldl_eq followers following []
  refine ⟨he, ?_⟩
  rw [he]
  exact List.filter_sublist following

/-- C2: both extraction sites resolve a record's username the same way —
`entries[0].value` when non-empty, otherwise `title` — so a following
record with its username only in `title` (no entries) resolves to that
title. -/
theorem username_resolution_policy (rel : InstagramRelationship) :
    followersResolvedUsername rel = specResolvedUsername rel ∧
    followingResolvedUsername rel = specResolvedUsername rel ∧
    (rel.stringListData = [] → followingResolvedUsername rel = rel.title) := by
  obtain ⟨t, ml, sl⟩ := rel
  cases sl with
  | nil => exact ⟨rfl, rfl, fun _ => rfl⟩
  | cons d tl =>
    refine ⟨?_, ?_, fun hc => by simp at hc⟩ <;>
      by_cases hv : d.value = "" <;>
        simp [followersResolvedUsername, followingResolvedUsername,
          specResolvedUsername, hv]

/-- C6: a buffer whose first two bytes are not `0x50 0x4B` is rejected
with the invalid-format message whatever the ZIP reader would have
produced — no archive parsing, no partial result. -/
theorem bad_magic_rejected (body : List Nat) (zipParse : Option (List ZipFile))
    (h : body.length < 2 ∨ ¬body.get? 0 = some 0x50 ∨ ¬body.get? 1 = some 0x4B) :
    analyzeCore body zipParse
      = AnalyzeResult.errorResp 400
          "Invalid file format. Please upload a valid ZIP file." := by
  unfold analyzeCore
  rw [if_pos]
  rcases h with h | h | h
  · exact Or.inl (by omega)
  · exact Or.inr (Or.inl h)
  · exact Or.inr (Or.inr h)

/-- C6 witness: the plain-text buffer "hello" is rejected. -/
theorem bad_magic_rejected_witness :
    (¬([104, 101, 108, 108, 111] : List Nat).get? 0 = some 0x50) ∧
    analyzeCore [104, 101, 108, 108, 111] none
      = AnalyzeResult.errorResp 400
          "Invalid file format. Please upload a valid ZIP file." :=
  ⟨by decide,
   bad_magic_rejected [104, 101, 108, 108, 111] none (Or.inr (Or.inl (by decide)))⟩

/-- C8: Scenario A — followers {user1, user2}, following
{user1, user3, user4} — succeeds with non-followers [user3, user4] in
order, count 2, total_following 3, total_followers 2. -/
theorem scenarioA_end_to_end :
    analyzeCore zipMagicBody (some [scenarioAFollowersFile, scenarioAFollowingFile])
      = AnalyzeResult.ok
          [{ username := "user3", profileURL := "https://instagram.com/user3",
             followedAt := 1700000000 },
           { username := "user4", profileURL := "https://instagram.com/user4",
             followedAt := 1700000000 }]
          3 2 2 "Analysis complete" := by decide

/-- C5: at the failing input — a followers-classified file whose bytes
decode as neither shape — `extractFollowers` emits a log line consisting
of the file's content, breaking the privacy invariant that diagnostics
never carry file contents. -/
theorem decode_failure_logs_content :
    "[DEBUG] extractFollowers: content preview: alice_secret"
        ∈ (extractFollowers [undecodableFollowersFile]).logs ∧
    containsSub "[DEBUG] extractFollowers: content preview: alice_secret"
        undecodableFollowersFile.raw = true := by decide

/-- C4 counterexample: a following file whose content decodes as none of
the shapes the code attempts but does decode as a single record
contributes nothing — while the claimed order (bare sequence, then
`relationships_following` object, then single record, first success
winning) would contribute the record resolved from its title. -/
theorem decode_order_as_claimed_false :
    (extractFollowing [titleOnlyFollowingFile]).following = [] ∧
    (claimAttemptOrder (Json.obj [("title", Json.str "alice"),
        ("relationships_following", Json.num 5)])).foldl followingAddRel []
      = [{ username := "alice", profileURL := "https://instagram.com/alice",
           followedAt := 0 }] := by decide

/-- C9 counterexample: two successive runs of the handler on the same
byte buffer can differ — after nine earlier requests in the window, the
first run is analyzed and the second is rejected by the rate limiter, so
the requestTracker state mutated between the runs changes the outcome. -/
theorem analyze_twice_can_differ :
    (analyzeHandler [1, 1, 1, 1, 1, 1, 1, 1, 1] 1 [104, 101, 108, 108, 111] none).1
      = AnalyzeResult.errorResp 400
          "Invalid file format. Please upload a valid ZIP file." ∧
    (analyzeHandler
        (analyzeHandler [1, 1, 1, 1, 1, 1, 1, 1, 1] 1
          [104, 101, 108, 108, 111] none).2
        1 [104, 101, 108, 108, 111] none).1
      = AnalyzeResult.errorResp 429 "Rate limit exceeded. Please try again later." ∧
    (analyzeHandler [1, 1, 1, 1, 1, 1, 1, 1, 1] 1 [104, 101, 108, 108, 111] none).1
      ≠ (analyzeHandler
          (analyzeHandler [1, 1, 1, 1, 1, 1, 1, 1, 1] 1
            [104, 101, 108, 108, 111] none).2
          1 [104, 101, 108, 108, 111] none).1 := by decide

/-- C3: once the magic check passes, an empty extracted following list
or follower set makes the analysis fail with the respective no-data
message (the two messages are distinct), and a successful result always
has positive totals — never a success with zero totals. -/
theorem empty_data_reported_as_error (body : List Nat) (files : List ZipFile)
    (hmagic : ¬(body.length < 4 ∨ ¬body.get? 0 = some 0x50 ∨ ¬body.get? 1 = some 0x4B)) :
    ((extractFollowing files).following = [] →
      analyzeCore body (some files)
        = AnalyzeResult.errorResp 400
            "No following data found. Please upload a valid Instagram data export.") ∧
    (¬(extractFollowing files).following = [] →
      (extractFollowers files).followers = [] →
      analyzeCore body (some files)
        = AnalyzeResult.errorResp 400
            "No followers data found. Please upload a valid Instagram data export.") ∧
    (∀ nf tfg tfr c m,
      analyzeCore body (some files) = AnalyzeResult.ok nf tfg tfr c m →
        0 < tfg ∧ 0 < tfr) ∧
    ("No following data found. Please upload a valid Instagram data export."
      ≠ "No followers data found. Please upload a valid Instagram data export.") := by
  simp only [analyzeCore_some body files hmagic]
  refine ⟨fun hfg => ?_, fun hfg hfr => ?_, fun nf tfg tfr c m heq => ?_, by decide⟩
  · rw [if_pos (by rw [extractFollowing_total, hfg]; rfl)]
  · have hn1 : ¬(extractFollowing files).total = 0 := by
      rw [extractFollowing_total]
      simpa [List.length_eq_zero] using hfg
    rw [if_neg hn1, if_pos (by rw [extractFollowers_total, hfr]; rfl)]
  · by_cases h1 : (extractFollowing files).total = 0
    · rw [if_pos h1] at heq; exact absurd heq (by simp)
    · rw [if_neg h1] at heq
      by_cases h2 : (extractFollowers files).total = 0
      · rw [if_pos h2] at heq; exact absurd heq (by simp)
      · rw [if_neg h2] at heq
        injection heq with e1 e2 e3 e4 e5
        rw [← e2, ← e3]
        exact ⟨Nat.pos_of_ne_zero h1, Nat.pos_of_ne_zero h2⟩

/-- C3 witness: an archive with no relevant files is reported as the
no-following-data error. -/
theorem empty_data_reported_as_error_witness :
    ¬(zipMagicBody.length < 4 ∨ ¬zipMagicBody.get? 0 = some 0x50 ∨
        ¬zipMagicBody.get? 1 = some 0x4B) ∧
    (extractFollowing ([] : List ZipFile)).following = [] ∧
    analyzeCore zipMagicBody (some [])
      = AnalyzeResult.errorResp 400
          "No following data found. Please upload a valid Instagram data export." :=
  ⟨by decide, rfl,
   (empty_data_reported_as_error zipMagicBody [] (by decide)).1 rfl⟩

/-- C10: both extraction passes return a nil error on every archive —
per-file open, read and decode failures are absorbed by skipping — so
the orchestrator never produces an internal-server-error (500) response
on any input. -/
theorem extraction_errors_unreachable (files : List ZipFile) (body : List Nat)
    (zipParse : Option (List ZipFile)) :
    (extractFollowers files).err = none ∧ (extractFollowing files).err = none ∧
    isServerError (analyzeCore body zipParse) = false := by
  refine ⟨rfl, rfl, ?_⟩
  by_cases h : body.length < 4 ∨ ¬body.get? 0 = some 0x50 ∨ ¬body.get? 1 = some 0x4B
  · unfold analyzeCore; rw [if_pos h]; rfl
  · cases zipParse with
    | none => unfold analyzeCore; rw [if_neg h]; rfl
    | some files' =>
      rw [analyzeCore_some body files' h]
      by_cases h1 : (extractFollowing files').total = 0
      · rw [if_pos h1]; rfl
      · rw [if_neg h1]
        by_cases h2 : (extractFollowers files').total = 0
        · rw [if_pos h2]; rfl
        · rw [if_neg h2]; rfl

/-- C7: an archive entry whose base name contains both "followers" and
"following" (case-insensitively) is ignored by both passes: removing it
from any archive changes neither the extracted follower set nor the
extracted following list. -/
theorem combined_name_contributes_nothing (pre post : List ZipFile) (f : ZipFile)
    (h1 : containsSub (lowerString (baseNameOf f.name)) "followers" = true)
    (h2 : containsSub (lowerString (baseNameOf f.name)) "following" = true) :
    (extractFollowers (pre ++ f :: post)).followers
        = (extractFollowers (pre ++ post)).followers ∧
    (extractFollowing (pre ++ f :: post)).following
        = (extractFollowing (pre ++ post)).following :=
  ⟨extractFollowersLoop_skip f h1 h2 pre post [],
   extractFollowingLoop_skip f h1 h2 pre post []⟩

/-- C7 witness: `followers_and_following.json` alone contributes
nothing to either pass. -/
theorem combined_name_contributes_nothing_witness :
    containsSub (lowerString (baseNameOf "followers_and_following.json"))
        "followers" = true ∧
    containsSub (lowerString (baseNameOf "followers_and_following.json"))
        "following" = true ∧
    (extractFollowers [{ name := "followers_and_following.json" }]).followers
      = (extractFollowers ([] : List ZipFile)).followers ∧
    (extractFollowing [{ name := "followers_and_following.json" }]).following
      = (extractFollowing ([] : List ZipFile)).following :=
  ⟨by decide, by decide,
   (combined_name_contributes_nothing [] [] { name := "followers_and_following.json" }
      (by decide) (by decide)).1,
   (combined_name_contributes_nothing [] [] { name := "followers_and_following.json" }
      (by decide) (by decide)).2⟩

/-- C9 (amended): whenever the rate limiter admits both runs, two runs
of the handler on the same byte buffer yield identical results — the
analysis outcome depends only on the buffer, not on the mutable
request-tracker state. -/
theorem analyze_pure_when_admitted (tracker1 tracker2 : List Int) (now1 now2 : Int)
    (body : List Nat) (zipParse : Option (List ZipFile))
    (h1 : (checkRateLimit tracker1 now1).1 = true)
    (h2 : (checkRateLimit tracker2 now2).1 = true) :
    (analyzeHandler tracker1 now1 body zipParse).1
      = (analyzeHandler tracker2 now2 body zipParse).1 := by
  simp [analyzeHandler, h1, h2]

/-- C9 witness: a first and a second admitted run agree. -/
theorem analyze_pure_when_admitted_witness :
    (checkRateLimit [] 0).1 = true ∧ (checkRateLimit [0] 0).1 = true ∧
    (analyzeHandler [] 0 [] none).1 = (analyzeHandler [0] 0 [] none).1 :=
  ⟨by decide, by decide,
   analyze_pure_when_admitted [] [0] 0 0 [] none (by decide) (by decide)⟩

/-- C4 (amended): per admitted, readable file, the followers pass
attempts the bare sequence shape then the single-record shape, and the
following pass attempts the `FollowingData` shape then the bare sequence
shape — the first successful attempt determines the file's contribution,
and a file decoding as none of the attempted shapes contributes nothing
(no error is raised: see the nil-error results of C10). -/
theorem per_file_decode_order (f : ZipFile) :
    (followersFileAdmitted f = true → f.openOk = true → f.readOk = true →
      (extractFollowers [f]).followers
        = (followersAttemptOrder f.json).foldl followersAddRel []) ∧
    (followingFileAdmitted f = true → f.openOk = true → f.readOk = true →
      (extractFollowing [f]).following
        = (followingAttemptOrder f.json).foldl followingAddRel []) := by
  constructor
  · intro ha ho hr
    obtain ⟨hp1, hp2, hp3⟩ := followersAdmitted_passes f ha
    have e : (extractFollowers [f]).followers = (followersStep [] f).1 := rfl
    rw [e, followersStep_admitted [] f hp1 hp2 hp3 ho hr]
  · intro ha ho hr
    obtain ⟨hp1, hp2, hp3⟩ := followingAdmitted_passes f ha
    rw [extractFollowing_singleton f,
      followingStep_admitted [] f hp1 hp2 hp3 ho hr]

/-- C4 witness: the Scenario A files are admitted and contribute exactly
the records of their first successful decode attempt. -/
theorem per_file_decode_order_witness :
    followersFileAdmitted scenarioAFollowersFile = true ∧
    followingFileAdmitted scenarioAFollowingFile = true ∧
    (extractFollowers [scenarioAFollowersFile]).followers
      = (followersAttemptOrder scenarioAFollowersFile.json).foldl followersAddRel [] ∧
    (extractFollowing [scenarioAFollowingFile]).following
      = (followingAttemptOrder scenarioAFollowingFile.json).foldl followingAddRel [] :=
  ⟨by decide, by decide,
   (per_file_decode_order scenarioAFollowersFile).1 (by decide) (by decide) (by decide),
   (per_file_decode_order scenarioAFollowingFile).2 (by decide) (by decide) (by decide)⟩

end FollowerWatch
